import Mathlib

/-!
Verification of the token lifecycle manager of the tyro reverse proxy.

The embedded code is the current `tokenstore` package (`TokenStore`, `Get`,
`set`, `Refresher`, `refresh`), the accessor `getTokenOrError` and the
raw-proxy rewriter `rawRewriter` from the main package, and
`SetAuthorizationHeaders` from the `sierraapi` package.

Modelling conventions:
  - a Go `(string, error)` pair becomes `String × Option String`,
    with `none` standing for a nil error;
  - the `Initialized` channel (capacity 1) is modelled by the number of
    queued notifications; a send performed by `set` increments it;
  - the HTTP exchange inside `refresh` is modelled by an `HttpResult`
    value describing which of the code's branch conditions the exchange
    produced (request-construction failure, network failure, a response
    with a status code and a decode result);
  - machine integers (`expires_in`, seconds) are `Int`; no arithmetic in
    the embedded code can overflow in practice and the Go `int` is 64-bit.
-/

/-- `const UninitialedTokenValue string = "uninitialized"` (tokenstore). -/
def UninitialedTokenValue : String := "uninitialized"

/-- `const TokenRefreshBuffer int = 5` (tokenstore). -/
def TokenRefreshBuffer : Int := 5

/-- `const MinimumTokenTTL int = 10` (tokenstore). -/
def MinimumTokenTTL : Int := 10

/-- `const DefaultRefreshTime int = 10` (tokenstore). -/
def DefaultRefreshTime : Int := 10

/-- The mutable state of `type TokenStore struct`: the `value` field, plus
the number of notifications queued in the capacity-1 `Initialized` channel.
The `Refresh` channel and the lock carry no value state. -/
structure TokenStore where
  value : String
  initQueued : Nat
deriving DecidableEq, Repr

/-- `func NewTokenStore() *TokenStore`: value starts as the sentinel and the
`Initialized` channel starts empty. -/
def NewTokenStore : TokenStore :=
  { value := UninitialedTokenValue, initQueued := 0 }

/-- `func (t *TokenStore) Get() (string, error)`: under a read lock, an empty
value yields `("", error)`; any other value is returned with a nil error. -/
def TokenStore.Get (t : TokenStore) : String × Option String :=
  if t.value = "" then ("", some "Token generation error.")
  else (t.value, none)

/-- `func (t *TokenStore) set(nt string)`: under the write lock, if the prior
value is the sentinel a notification is sent on `Initialized`, then the value
is overwritten. -/
def TokenStore.set (t : TokenStore) (nt : String) : TokenStore :=
  if t.value = UninitialedTokenValue then
    { value := nt, initQueued := t.initQueued + 1 }
  else
    { t with value := nt }

/-- The decoded `{access_token, token_type, expires_in}` structure
(`AuthTokenResponse` in `refresh`). -/
structure AuthTokenResponse where
  access_token : String
  token_type : String
  expires_in : Int
deriving DecidableEq, Repr

/-- Outcome of the HTTP token exchange performed inside `refresh`:
`http.NewRequest` failing, `client.Do` failing, or a response carrying a
status code and the result of JSON-decoding its body. -/
inductive HttpResult where
  | requestError
  | networkError
  | ok (status : Int) (body : Except String AuthTokenResponse)
deriving Repr

/-- `func (t *TokenStore) refresh(tokenURL, clientKey, clientSecret string) (int, error)`:
every failure branch calls `t.set("")` and returns a non-nil error; a 200
response that decodes and has `expires_in ≥ MinimumTokenTTL` calls
`t.set(access_token)` and returns `expires_in` with a nil error. -/
def TokenStore.refresh (t : TokenStore) (h : HttpResult) :
    TokenStore × Int × Option String :=
  match h with
  | .requestError => (t.set "", 0, some "request construction failed")
  | .networkError => (t.set "", 0, some "network call failed")
  | .ok status body =>
    if status ≠ 200 then
      (t.set "", 0, some "Unable to authenticate to token generator.")
    else
      match body with
      | .error e => (t.set "", 0, some e)
      | .ok r =>
        if r.expires_in < MinimumTokenTTL then
          (t.set "", 0, some "Token has a expire_in that is too small.")
        else
          (t.set r.access_token, r.expires_in, none)

/-- A sequence of `set` calls applied to a store, in order. -/
def runSets (t : TokenStore) (vs : List String) : TokenStore :=
  vs.foldl TokenStore.set t

/-- A store state is reachable when it results from `NewTokenStore()`
followed by some sequence of `set` calls (every write to the store, by
`refresh` or by tests, goes through `set`). -/
def Reachable (t : TokenStore) : Prop :=
  ∃ vs, t = runSets NewTokenStore vs

/-- How many notifications the `Initialized` channel receives over a
sequence of `set` calls: each call sends one exactly when the prior value
equals the sentinel. -/
def notifyCount : TokenStore → List String → Nat
  | _, [] => 0
  | t, v :: vs =>
    (if t.value = UninitialedTokenValue then 1 else 0) + notifyCount (t.set v) vs

/-- The body of `runRefreshSetUpNext` inside `Refresher`: run `refresh`; on
error replace the TTL by `DefaultRefreshTime + TokenRefreshBuffer`; the
timer is then armed for `refreshIn - TokenRefreshBuffer` seconds. Returns
the updated store and the armed duration (`futureTime`), in seconds. -/
def runRefreshSetUpNext (t : TokenStore) (h : HttpResult) : TokenStore × Int :=
  let res := t.refresh h
  let refreshIn := if (res.2.2).isSome then DefaultRefreshTime + TokenRefreshBuffer
                   else res.2.1
  (res.1, refreshIn - TokenRefreshBuffer)

/-- `time.After` fires immediately on a nonpositive duration, so the actual
wait until the next refresh is the armed duration clamped at zero. -/
def scheduledWait (t : TokenStore) (h : HttpResult) : Int :=
  max (runRefreshSetUpNext t h).2 0

/-- The events the `select` inside `refreshOrTimeout` can observe: the timer
firing, a value received on `Refresh`, or `Refresh` being closed. -/
inductive RefresherEvent where
  | timerFired
  | refreshSignal
  | refreshClosed
deriving DecidableEq, Repr

/-- State of the goroutine started by `Refresher`: the store it owns writes
to, and whether the loop has returned. -/
structure RefresherState where
  store : TokenStore
  exited : Bool
deriving DecidableEq, Repr

/-- One iteration of the `Refresher` loop. An exited goroutine does nothing.
A timer fire or a received refresh signal runs `runRefreshSetUpNext`; a
closed `Refresh` channel makes `refreshOrTimeout` return an error, on which
the goroutine returns without touching the store. -/
def refresherStep (s : RefresherState) (ev : RefresherEvent) (h : HttpResult) :
    RefresherState :=
  if s.exited then s
  else
    match ev with
    | .timerFired => { store := (runRefreshSetUpNext s.store h).1, exited := false }
    | .refreshSignal => { store := (runRefreshSetUpNext s.store h).1, exited := false }
    | .refreshClosed => { store := s.store, exited := true }

/-- Run the `Refresher` loop over a list of observed events. -/
def runRefresherEvents (s : RefresherState) :
    List (RefresherEvent × HttpResult) → RefresherState
  | [] => s
  | (ev, h) :: rest => runRefresherEvents (refresherStep s ev h) rest

/-- The two ways the `select` in `getTokenOrError` can resolve for a caller
blocked on the sentinel: a receive on `Initialized`, or
`time.After(time.Second * 30)` firing first. -/
inductive WaitOutcome where
  | notified
  | timedOut
deriving DecidableEq, Repr

/-- `func getTokenOrError(w, r) (string, error)` (main package): read the
store; a `Get` error returns at once; the sentinel makes the caller block
until notified (then hand the notification back and re-read the store,
whose state may have changed to `t2` meanwhile) or until the 30-second
timeout (then return the still-held sentinel with a non-nil error). -/
def getTokenOrError (t1 : TokenStore) (w : WaitOutcome) (t2 : TokenStore) :
    String × Option String :=
  let first := t1.Get
  if (first.2).isSome then first
  else if first.1 = UninitialedTokenValue then
    match w with
    | .notified => t2.Get
    | .timedOut => (first.1, some "Unable to get token from TokenStore")
  else first

/-- `func SetAuthorizationHeaders(nr, or, token)` (sierraapi): the headers it
unconditionally adds to the outgoing request. The `X-Forwarded-For` logic
can fail afterwards, but the `Authorization` header is already added. -/
structure RewrittenRequest where
  authorization : String
  userAgent : String
deriving DecidableEq, Repr

/-- The header-setting part of `SetAuthorizationHeaders`. -/
def SetAuthorizationHeaders (token : String) : RewrittenRequest :=
  { authorization := "Bearer " ++ token, userAgent := "Tyro" }

/-- `func rawRewriter(r *http.Request)` (main package): reads the store,
binds the error only to log it, and always rewrites the request with
`SetAuthorizationHeaders` on whatever string `Get` returned. As a
`ReverseProxy.Director` it cannot reject a request; it is a total function
to a rewritten request. -/
def rawRewriter (t : TokenStore) : RewrittenRequest :=
  SetAuthorizationHeaders (t.Get).1

/-- Configuration of N symmetric callers blocked in `getTokenOrError`
together with the `Initialized` channel (capacity 1). Each waiter is
blocked in the `select` (`nBlocked`), has received the notification and is
about to hand it back with `tokenStore.Initialized <- struct\x7b\x7d\x7b\x7d`
(`nHandback`), or has handed it back and proceeded to re-read the store
(`nDone`). `chanBuf` is the number of buffered notifications. -/
structure AccessorSystem where
  nBlocked : Nat
  nHandback : Nat
  nDone : Nat
  chanBuf : Nat
deriving DecidableEq, Repr

/-- The state right after the first `set` call: all N waiters still blocked
in the `select`, one notification buffered in `Initialized`. -/
def accessorInit (n : Nat) : AccessorSystem :=
  { nBlocked := n, nHandback := 0, nDone := 0, chanBuf := 1 }

/-- Interleaving steps of the waiters: a blocked waiter receives from the
non-empty channel; a waiter holding the notification sends it back into the
channel (capacity 1, so the send needs `chanBuf < 1`) and is then done. -/
inductive AStep : AccessorSystem → AccessorSystem → Prop
  | recv (s : AccessorSystem) (hw : 0 < s.nBlocked) (hc : 0 < s.chanBuf) :
      AStep s { nBlocked := s.nBlocked - 1, nHandback := s.nHandback + 1,
                nDone := s.nDone, chanBuf := s.chanBuf - 1 }
  | send (s : AccessorSystem) (hw : 0 < s.nHandback) (hc : s.chanBuf < 1) :
      AStep s { nBlocked := s.nBlocked, nHandback := s.nHandback - 1,
                nDone := s.nDone + 1, chanBuf := s.chanBuf + 1 }

/-- States reachable from the post-first-initialization configuration. -/
def AReachable (n : Nat) (s : AccessorSystem) : Prop :=
  Relation.ReflTransGen AStep (accessorInit n) s

/-- A configuration from which no waiter can move. -/
def AStuck (s : AccessorSystem) : Prop :=
  ∀ s', ¬ AStep s s'

/-- Decreasing measure: receives and hand-backs left to perform. -/
def ameasure (s : AccessorSystem) : Nat :=
  2 * s.nBlocked + s.nHandback

/-- `set` always overwrites the value with its argument. -/
theorem TokenStore.set_value (t : TokenStore) (nt : String) :
    (t.set nt).value = nt := by
  unfold TokenStore.set
  split <;> rfl

/-- A successful `refresh` returned a TTL of at least `MinimumTokenTTL`. -/
theorem refresh_success_ttl_lower_bound (t : TokenStore) (h : HttpResult)
    (hs : (t.refresh h).2.2 = none) :
    MinimumTokenTTL ≤ (t.refresh h).2.1 := by
  cases h with
  | requestError => simp [TokenStore.refresh] at hs
  | networkError => simp [TokenStore.refresh] at hs
  | ok status body =>
    by_cases h200 : status = 200
    · subst h200
      cases body with
      | error e => simp [TokenStore.refresh] at hs
      | ok r =>
        by_cases httl : r.expires_in < MinimumTokenTTL
        · simp [TokenStore.refresh, httl] at hs
        · simp [TokenStore.refresh, httl]
          omega
    · simp [TokenStore.refresh, h200] at hs

/-- C1: every error branch of `refresh` (request construction, network,
non-200 status, decode failure, short TTL) sets the store to the empty
Failed value before returning, and a nil-error return means the response
had status 200, decoded, and the store now holds its `access_token` while
the returned integer is its `expires_in`. -/
theorem refresh_failure_sets_failed_success_sets_token
    (t : TokenStore) (h : HttpResult) :
    (((t.refresh h).2.2).isSome = true → ((t.refresh h).1).value = "") ∧
    ((t.refresh h).2.2 = none →
      ∃ r, h = HttpResult.ok 200 (Except.ok r) ∧
        ((t.refresh h).1).value = r.access_token ∧
        (t.refresh h).2.1 = r.expires_in) := by
  cases h with
  | requestError =>
    exact ⟨fun _ => TokenStore.set_value t "", fun hc => by simp [TokenStore.refresh] at hc⟩
  | networkError =>
    exact ⟨fun _ => TokenStore.set_value t "", fun hc => by simp [TokenStore.refresh] at hc⟩
  | ok status body =>
    by_cases h200 : status = 200
    · subst h200
      cases body with
      | error e =>
        exact ⟨fun _ => by simpa [TokenStore.refresh] using TokenStore.set_value t "",
               fun hc => by simp [TokenStore.refresh] at hc⟩
      | ok r =>
        by_cases httl : r.expires_in < MinimumTokenTTL
        · refine ⟨fun _ => ?_, fun hc => by simp [TokenStore.refresh, httl] at hc⟩
          simpa [TokenStore.refresh, httl] using TokenStore.set_value t ""
        · refine ⟨fun hc => ?_, fun _ => ⟨r, rfl, ?_, ?_⟩⟩
          · simp [TokenStore.refresh, httl] at hc
          · simpa [TokenStore.refresh, httl] using TokenStore.set_value t r.access_token
          · simp [TokenStore.refresh, httl]
    · refine ⟨fun _ => ?_, fun hc => by simp [TokenStore.refresh, h200] at hc⟩
      simpa [TokenStore.refresh, h200] using TokenStore.set_value t ""

/-- C1 witness: at a concrete store, a network failure leaves the Failed
value, and a concrete good 200 response stores its token and returns its
TTL. -/
theorem refresh_failure_sets_failed_success_sets_token_witness :
    ((NewTokenStore.refresh HttpResult.networkError).1).value = "" ∧
    (∃ r, HttpResult.ok 200 (Except.ok ⟨"T", "bearer", 3600⟩) =
        HttpResult.ok 200 (Except.ok r) ∧
      ((NewTokenStore.refresh
          (HttpResult.ok 200 (Except.ok ⟨"T", "bearer", 3600⟩))).1).value =
        r.access_token ∧
      (NewTokenStore.refresh
          (HttpResult.ok 200 (Except.ok ⟨"T", "bearer", 3600⟩))).2.1 =
        r.expires_in) :=
  ⟨(refresh_failure_sets_failed_success_sets_token NewTokenStore
      HttpResult.networkError).1 (by decide),
   (refresh_failure_sets_failed_success_sets_token NewTokenStore
      (HttpResult.ok 200 (Except.ok ⟨"T", "bearer", 3600⟩))).2 (by decide)⟩

/-- C2: a freshly constructed store answers `Get` with the sentinel and a
nil error, and for every reachable store `Get` returns `("", error)` when
the stored value is empty and `(value, nil)` — the stored token — when it
is non-empty (the sentinel case being the non-empty value
`"uninitialized"`). -/
theorem get_trichotomy :
    NewTokenStore.Get = (UninitialedTokenValue, none) ∧
    ∀ t : TokenStore, Reachable t →
      (t.value = "" → t.Get = ("", some "Token generation error.")) ∧
      (t.value ≠ "" → t.Get = (t.value, none)) := by
  refine ⟨by decide, fun t _ => ⟨fun hv => ?_, fun hv => ?_⟩⟩
  · simp [TokenStore.Get, hv]
  · simp [TokenStore.Get, hv]

/-- C2 witness: the fresh store clause is closed; for the quantified
clause, the store reached by `set("")` answers `Get` with an error, and the
store reached by `set("tok")` answers with the token. -/
theorem get_trichotomy_witness :
    NewTokenStore.Get = (UninitialedTokenValue, none) ∧
    (runSets NewTokenStore [""]).Get = ("", some "Token generation error.") ∧
    (runSets NewTokenStore ["tok"]).Get = ("tok", none) :=
  ⟨get_trichotomy.1,
   ((get_trichotomy.2 (runSets NewTokenStore [""]) ⟨[""], rfl⟩).1 (by decide)),
   (by
     have h := (get_trichotomy.2 (runSets NewTokenStore ["tok"]) ⟨["tok"], rfl⟩).2
       (by decide)
     simpa using h)⟩

/-- C5: for a 200 response that decodes to `r`, `refresh` errors and leaves
the empty Failed value exactly when `r.expires_in < MinimumTokenTTL` (10);
at exactly the threshold the token is accepted and stored. -/
theorem refresh_min_ttl_threshold (t : TokenStore) (r : AuthTokenResponse) :
    ((((t.refresh (HttpResult.ok 200 (Except.ok r))).2.2).isSome = true ∧
        ((t.refresh (HttpResult.ok 200 (Except.ok r))).1).value = "") ↔
      r.expires_in < MinimumTokenTTL) ∧
    (r.expires_in = MinimumTokenTTL →
      (t.refresh (HttpResult.ok 200 (Except.ok r))).2.2 = none ∧
      ((t.refresh (HttpResult.ok 200 (Except.ok r))).1).value = r.access_token) := by
  constructor
  · constructor
    · intro hc
      by_contra httl
      simp [TokenStore.refresh, httl] at hc
    · intro httl
      refine ⟨by simp [TokenStore.refresh, httl], ?_⟩
      simpa [TokenStore.refresh, httl] using TokenStore.set_value t ""
  · intro heq
    have httl : ¬ r.expires_in < MinimumTokenTTL := by omega
    refine ⟨by simp [TokenStore.refresh, httl], ?_⟩
    simpa [TokenStore.refresh, httl] using TokenStore.set_value t r.access_token

/-- C5 witness: `expires_in = 1` is rejected into the Failed state;
`expires_in = 10` (the threshold itself) is accepted and stored. -/
theorem refresh_min_ttl_threshold_witness :
    (((NewTokenStore.refresh
        (HttpResult.ok 200 (Except.ok ⟨"short", "bearer", 1⟩))).2.2).isSome = true ∧
      ((NewTokenStore.refresh
        (HttpResult.ok 200 (Except.ok ⟨"short", "bearer", 1⟩))).1).value = "") ∧
    ((NewTokenStore.refresh
        (HttpResult.ok 200 (Except.ok ⟨"edge", "bearer", 10⟩))).2.2 = none ∧
      ((NewTokenStore.refresh
        (HttpResult.ok 200 (Except.ok ⟨"edge", "bearer", 10⟩))).1).value = "edge") :=
  ⟨(refresh_min_ttl_threshold NewTokenStore ⟨"short", "bearer", 1⟩).1.mpr (by decide),
   (refresh_min_ttl_threshold NewTokenStore ⟨"edge", "bearer", 10⟩).2 (by decide)⟩

/-- C4: after a completed acquisition attempt, the wait until the next
refresh is `max(ttl - TokenRefreshBuffer, 0)` seconds on success with TTL
`ttl` (the clamp never bites, because success forces
`ttl ≥ MinimumTokenTTL > TokenRefreshBuffer`), and exactly
`DefaultRefreshTime` seconds on failure (the code arms the timer for
`(DefaultRefreshTime + TokenRefreshBuffer) - TokenRefreshBuffer`). -/
theorem refresher_wait_durations (t : TokenStore) (h : HttpResult) :
    ((t.refresh h).2.2 = none →
      scheduledWait t h = max ((t.refresh h).2.1 - TokenRefreshBuffer) 0 ∧
      scheduledWait t h = (t.refresh h).2.1 - TokenRefreshBuffer) ∧
    (((t.refresh h).2.2).isSome = true →
      scheduledWait t h = DefaultRefreshTime) := by
  constructor
  · intro hs
    have hb := refresh_success_ttl_lower_bound t h hs
    have hw : (runRefreshSetUpNext t h).2 = (t.refresh h).2.1 - TokenRefreshBuffer := by
      simp [runRefreshSetUpNext, hs]
    have hge : (0 : Int) ≤ (t.refresh h).2.1 - TokenRefreshBuffer := by
      simp only [MinimumTokenTTL] at hb
      simp only [TokenRefreshBuffer]
      omega
    constructor
    · simp [scheduledWait, hw]
    · simp [scheduledWait, hw]
      omega
  · intro hf
    have hw : (runRefreshSetUpNext t h).2 =
        DefaultRefreshTime + TokenRefreshBuffer - TokenRefreshBuffer := by
      simp [runRefreshSetUpNext, hf]
    simp [scheduledWait, hw, DefaultRefreshTime]

/-- C4 witness: a success with TTL 3600 schedules a 3595-second wait; a
network failure schedules exactly `DefaultRefreshTime` = 10 seconds. -/
theorem refresher_wait_durations_witness :
    scheduledWait NewTokenStore
        (HttpResult.ok 200 (Except.ok ⟨"T", "bearer", 3600⟩)) = 3595 ∧
    scheduledWait NewTokenStore HttpResult.networkError = DefaultRefreshTime := by
  constructor
  · have h := (refresher_wait_durations NewTokenStore
      (HttpResult.ok 200 (Except.ok ⟨"T", "bearer", 3600⟩))).1 (by decide)
    have h2 := h.2
    simp only [TokenStore.refresh, MinimumTokenTTL] at h2
    norm_num at h2
    simpa [TokenRefreshBuffer] using h2
  · exact (refresher_wait_durations NewTokenStore HttpResult.networkError).2 (by decide)

/-- An exited `Refresher` goroutine is unaffected by any further events. -/
theorem runRefresherEvents_exited (s : RefresherState) (hs : s.exited = true) :
    ∀ evs, runRefresherEvents s evs = s := by
  intro evs
  induction evs with
  | nil => rfl
  | cons e rest ih =>
    obtain ⟨ev, h⟩ := e
    have hstep : refresherStep s ev h = s := by
      simp [refresherStep, hs]
    simpa [runRefresherEvents, hstep] using ih

/-- C6: when the running `Refresher` loop observes the `Refresh` channel
closed, it exits with the store untouched, and no sequence of further
events ever changes its state again — the store retains its last value
forever. -/
theorem refresher_close_is_terminal (s : RefresherState) (h : HttpResult)
    (evs : List (RefresherEvent × HttpResult)) (hrun : s.exited = false) :
    (refresherStep s RefresherEvent.refreshClosed h).exited = true ∧
    (refresherStep s RefresherEvent.refreshClosed h).store = s.store ∧
    runRefresherEvents (refresherStep s RefresherEvent.refreshClosed h) evs =
      refresherStep s RefresherEvent.refreshClosed h := by
  have hstep : refresherStep s RefresherEvent.refreshClosed h =
      { store := s.store, exited := true } := by
    simp [refresherStep, hrun]
  refine ⟨by simp [hstep], by simp [hstep], ?_⟩
  rw [hstep]
  exact runRefresherEvents_exited _ rfl evs

/-- C6 witness: a concrete running loop, closed, then fed two more events
(a timer fire and a refresh signal), keeps its store value unchanged. -/
theorem refresher_close_is_terminal_witness :
    (refresherStep ⟨NewTokenStore, false⟩ RefresherEvent.refreshClosed
        HttpResult.networkError).exited = true ∧
    (refresherStep ⟨NewTokenStore, false⟩ RefresherEvent.refreshClosed
        HttpResult.networkError).store = NewTokenStore ∧
    runRefresherEvents
        (refresherStep ⟨NewTokenStore, false⟩ RefresherEvent.refreshClosed
          HttpResult.networkError)
        [(RefresherEvent.timerFired, HttpResult.networkError),
         (RefresherEvent.refreshSignal,
          HttpResult.ok 200 (Except.ok ⟨"T", "bearer", 3600⟩))] =
      refresherStep ⟨NewTokenStore, false⟩ RefresherEvent.refreshClosed
        HttpResult.networkError :=
  refresher_close_is_terminal ⟨NewTokenStore, false⟩ HttpResult.networkError
    [(RefresherEvent.timerFired, HttpResult.networkError),
     (RefresherEvent.refreshSignal,
      HttpResult.ok 200 (Except.ok ⟨"T", "bearer", 3600⟩))] rfl

/-- C7: when the first `Get` observes the sentinel, the accessor either is
notified — and then returns the result of re-reading the store, whatever
state (`t2`) it has moved to — or times out first and returns the timeout
error (the sentinel string is returned there, but always together with a
non-nil error). -/
theorem accessor_sentinel_wait (t1 : TokenStore) (w : WaitOutcome)
    (t2 : TokenStore) (hsent : t1.Get = (UninitialedTokenValue, none)) :
    (w = WaitOutcome.notified → getTokenOrError t1 w t2 = t2.Get) ∧
    (w = WaitOutcome.timedOut →
      getTokenOrError t1 w t2 =
        (UninitialedTokenValue, some "Unable to get token from TokenStore")) := by
  constructor
  · rintro rfl
    simp [getTokenOrError, hsent]
  · rintro rfl
    simp [getTokenOrError, hsent]

/-- C7 witness: from a fresh store, a notified waiter whose re-read sees
the token `"tok"` returns `("tok", nil)`; a timed-out waiter returns the
sentinel with the timeout error. -/
theorem accessor_sentinel_wait_witness :
    getTokenOrError NewTokenStore WaitOutcome.notified
        (NewTokenStore.set "tok") = ("tok", none) ∧
    getTokenOrError NewTokenStore WaitOutcome.timedOut NewTokenStore =
      (UninitialedTokenValue, some "Unable to get token from TokenStore") := by
  constructor
  · have h := (accessor_sentinel_wait NewTokenStore WaitOutcome.notified
      (NewTokenStore.set "tok") (by decide)).1 rfl
    rw [h]
    decide
  · exact (accessor_sentinel_wait NewTokenStore WaitOutcome.timedOut
      NewTokenStore (by decide)).2 rfl

/-- C9: `rawRewriter` forwards every request with
`Authorization: Bearer <Get value>` no matter the store state — it binds
the `Get` error only to log it. In the Failed state (`Get` returns an
error) the header is the bare `"Bearer "`; before first initialization it
is `"Bearer uninitialized"`. -/
theorem rawRewriter_ignores_get_error (t : TokenStore) :
    (rawRewriter t).authorization = "Bearer " ++ (t.Get).1 ∧
    (t.value = "" →
      ((t.Get).2).isSome = true ∧ (rawRewriter t).authorization = "Bearer ") ∧
    (t.value = UninitialedTokenValue →
      (rawRewriter t).authorization = "Bearer uninitialized") := by
  refine ⟨rfl, fun hv => ?_, fun hv => ?_⟩
  · constructor
    · simp [TokenStore.Get, hv]
    · simp [rawRewriter, SetAuthorizationHeaders, TokenStore.Get, hv]
  · have hne : t.value ≠ "" := by
      rw [hv]; decide
    simp [rawRewriter, SetAuthorizationHeaders, TokenStore.Get, hne, hv,
      UninitialedTokenValue]

/-- C9 witness: the store driven to the Failed state by `set("")` still
yields a forwarded request with header `"Bearer "`, and a fresh store
yields `"Bearer uninitialized"`. -/
theorem rawRewriter_ignores_get_error_witness :
    (((NewTokenStore.set "").Get).2).isSome = true ∧
    (rawRewriter (NewTokenStore.set "")).authorization = "Bearer " ∧
    (rawRewriter NewTokenStore).authorization = "Bearer uninitialized" :=
  ⟨((rawRewriter_ignores_get_error (NewTokenStore.set "")).2.1 (by decide)).1,
   ((rawRewriter_ignores_get_error (NewTokenStore.set "")).2.1 (by decide)).2,
   (rawRewriter_ignores_get_error NewTokenStore).2.2 (by decide)⟩

/-- No `set` call ever notifies once the value sits off the sentinel, as
long as no argument writes the sentinel back. -/
theorem notifyCount_zero_of_no_sentinel (vs : List String) :
    ∀ t : TokenStore, t.value ≠ UninitialedTokenValue →
      (∀ u ∈ vs, u ≠ UninitialedTokenValue) → notifyCount t vs = 0 := by
  induction vs with
  | nil =>
    intro t _ _
    rfl
  | cons u rest ih =>
    intro t ht hall
    have hstep : notifyCount t (u :: rest) =
        (if t.value = UninitialedTokenValue then 1 else 0) +
          notifyCount (t.set u) rest := rfl
    rw [hstep, if_neg ht]
    have hu : (t.set u).value ≠ UninitialedTokenValue := by
      rw [TokenStore.set_value]
      exact hall u (by simp)
    rw [ih (t.set u) hu (fun x hx => hall x (by simp [hx]))]

/-- C3 counterexample: the claim says the notification fires at most once
per store, exactly on the first `set` that moves the value away from the
sentinel. But `set` tests the prior value against the sentinel string, so
the call sequence `set("uninitialized"); set("tok")` sends two
notifications, and its first call notifies without moving the store away
from the sentinel. -/
theorem set_notifies_twice_counterexample :
    notifyCount NewTokenStore [UninitialedTokenValue, "tok"] = 2 ∧
    (runSets NewTokenStore [UninitialedTokenValue, "tok"]).initQueued = 2 ∧
    (NewTokenStore.set UninitialedTokenValue).value = UninitialedTokenValue := by
  decide

/-- C3 amended: a `set` call notifies exactly when the prior value equals
the sentinel; so over any sequence of `set` calls none of whose arguments
equals the sentinel string, the notification is sent exactly once, on the
first call — whether it moves the store to Valid or to Failed — and never
by any later call. -/
theorem set_notifies_once_without_sentinel_args (v : String) (vs : List String)
    (hv : v ≠ UninitialedTokenValue)
    (hvs : ∀ u ∈ vs, u ≠ UninitialedTokenValue) :
    notifyCount NewTokenStore (v :: vs) = 1 ∧
    notifyCount (NewTokenStore.set v) vs = 0 := by
  have hrest : notifyCount (NewTokenStore.set v) vs = 0 := by
    refine notifyCount_zero_of_no_sentinel vs (NewTokenStore.set v) ?_ hvs
    rw [TokenStore.set_value]
    exact hv
  have hstep : notifyCount NewTokenStore (v :: vs) =
      (if NewTokenStore.value = UninitialedTokenValue then 1 else 0) +
        notifyCount (NewTokenStore.set v) vs := rfl
  refine ⟨?_, hrest⟩
  rw [hstep, if_pos (show NewTokenStore.value = UninitialedTokenValue from rfl),
    hrest]

/-- C3 amended witness: the first transition being to the Failed value
(first argument `""`) still notifies exactly once, and the later `set`
calls add no notification. -/
theorem set_notifies_once_without_sentinel_args_witness :
    notifyCount NewTokenStore ["", "tok", ""] = 1 ∧
    notifyCount (NewTokenStore.set "") ["tok", ""] = 0 :=
  set_notifies_once_without_sentinel_args "" ["tok", ""] (by decide)
    (by decide)

/-- Invariant of the hand-back protocol: the buffered notification count
plus the number of waiters holding the notification is always one, and the
waiter population is conserved. -/
theorem accessor_invariant (n : Nat) (s : AccessorSystem)
    (hr : AReachable n s) :
    s.chanBuf + s.nHandback = 1 ∧ s.nBlocked + s.nHandback + s.nDone = n := by
  induction hr with
  | refl => exact ⟨rfl, by simp [accessorInit]⟩
  | tail _ hstep ih =>
    obtain ⟨h1, h2⟩ := ih
    cases hstep with
    | recv hw hc => exact ⟨by simp; omega, by simp; omega⟩
    | send hw hc => exact ⟨by simp; omega, by simp; omega⟩

/-- C8: a single first-initialization notification, handed back by each
waiter, unblocks all N waiters: every step strictly decreases the measure
(so every execution is finite), and any reachable configuration in which
no step is possible has every waiter done — no interleaving leaves a
waiter blocked while the others finish. -/
theorem accessor_broadcast_unblocks_all (n : Nat) (s : AccessorSystem)
    (hr : AReachable n s) (hstuck : AStuck s) :
    (s.nBlocked = 0 ∧ s.nHandback = 0 ∧ s.nDone = n ∧ s.chanBuf = 1) ∧
    (∀ s1 s2 : AccessorSystem, AStep s1 s2 → ameasure s2 < ameasure s1) := by
  obtain ⟨h1, h2⟩ := accessor_invariant n s hr
  have hnh : s.nHandback = 0 := by
    by_contra hne
    have hc : s.chanBuf < 1 := by omega
    exact hstuck _ (AStep.send s (by omega) hc)
  have hnb : s.nBlocked = 0 := by
    by_contra hne
    rcases Nat.eq_zero_or_pos s.chanBuf with hc | hc
    · omega
    · exact hstuck _ (AStep.recv s (by omega) hc)
  refine ⟨⟨hnb, hnh, by omega, by omega⟩, fun s1 s2 hstep => ?_⟩
  cases hstep with
  | recv hw hc => simp [ameasure]; omega
  | send hw hc => simp [ameasure]; omega

/-- C8 witness: with N = 2 waiters, the interleaving
receive/hand-back/receive/hand-back reaches the configuration where no
step remains, and the theorem yields that both waiters are done and the
channel again holds the notification. -/
theorem accessor_broadcast_unblocks_all_witness :
    ((AccessorSystem.mk 0 0 2 1).nBlocked = 0 ∧
      (AccessorSystem.mk 0 0 2 1).nHandback = 0 ∧
      (AccessorSystem.mk 0 0 2 1).nDone = 2 ∧
      (AccessorSystem.mk 0 0 2 1).chanBuf = 1) ∧
    (∀ s1 s2 : AccessorSystem, AStep s1 s2 → ameasure s2 < ameasure s1) := by
  have h1 : AStep (accessorInit 2) (AccessorSystem.mk 1 1 0 0) :=
    AStep.recv (accessorInit 2) (by decide) (by decide)
  have h2 : AStep (AccessorSystem.mk 1 1 0 0) (AccessorSystem.mk 1 0 1 1) :=
    AStep.send (AccessorSystem.mk 1 1 0 0) (by decide) (by decide)
  have h3 : AStep (AccessorSystem.mk 1 0 1 1) (AccessorSystem.mk 0 1 1 0) :=
    AStep.recv (AccessorSystem.mk 1 0 1 1) (by decide) (by decide)
  have h4 : AStep (AccessorSystem.mk 0 1 1 0) (AccessorSystem.mk 0 0 2 1) :=
    AStep.send (AccessorSystem.mk 0 1 1 0) (by decide) (by decide)
  have hreach : AReachable 2 (AccessorSystem.mk 0 0 2 1) :=
    Relation.ReflTransGen.tail
      (Relation.ReflTransGen.tail
        (Relation.ReflTransGen.tail
          (Relation.ReflTransGen.tail Relation.ReflTransGen.refl h1) h2) h3) h4
  have hstuck : AStuck (AccessorSystem.mk 0 0 2 1) := by
    intro s' hs'
    cases hs' with
    | recv hw hc => exact absurd hw (by decide)
    | send hw hc => exact absurd hw (by decide)
  exact accessor_broadcast_unblocks_all 2 (AccessorSystem.mk 0 0 2 1) hreach hstuck
